import Mathlib

set_option maxRecDepth 100000

/-
  Verification of the OneCrypto loader/ABI layer.

  Shallow embedding of:
  - the two-phase crypto entry protocol
    (src/OneCryptoPkg/OneCryptoBin/OneCryptoBin.c: NoSetupCryptoEntry, CryptoEntry,
     CryptoInit; src/OneCryptoPkg/Library/OneCryptoCrtLib/OneCryptoCrtLib.c:
     OneCryptoCrtSetup)
  - the host PE/COFF loader
    (src/OneCryptoPkg/Test/Fuzz/PeCoffLoaderHost.c: PeCoffLoadImage)
  - the loader bootstrap sequences
    (src/OneCryptoPkg/OneCryptoLoaders/OneCryptoLoaderDxe.c,
     OneCryptoLoaderDxeByProtocol.c, OneCryptoLoaderHost.c)

  Machine integers are modelled as Nat with explicit `% 2^w` at the points where
  the C performs fixed-width arithmetic.  Pointers that may be NULL are modelled
  as Option.  Reads through a byte buffer use `List.getD _ _ 0` (total); where
  the C would read or write out of bounds, a flag records the attempt, since in
  C that access is undefined behaviour.
-/

namespace OneCrypto

/-- EFI status codes used by the OneCrypto code paths.  Modelled as an
enumeration; all listed non-success codes are EFI error codes (high bit set). -/
inductive Status where
  | success
  | bufferTooSmall
  | invalidParameter
  | outOfResources
  | notReady
  | unsupported
  | protocolError
  | deviceError
  | loadError
  deriving DecidableEq, Repr

/-- The EFI_ERROR macro: all modelled non-success codes have the error bit set. -/
def EFI_ERROR : Status → Bool
  | .success => false
  | _ => true

@[simp]
theorem EFI_ERROR_success : EFI_ERROR .success = false := rfl

/-! ### The dependency table

Mirrors ONE_CRYPTO_DEPENDENCIES
(src/OneCryptoPkg/Include/Private/OneCryptoDependencySupport.h, lines 131-146).
Function pointers are modelled as Nat-valued handles. -/

structure Dependencies where
  major : Nat
  minor : Nat
  reserved : Nat
  allocatePool : Nat
  freePool : Nat
  getTime : Nat
  debugPrint : Nat
  getRandomNumber64 : Nat
  deriving DecidableEq, Repr

/-- ONE_CRYPTO_DEPENDENCIES_VERSION_MAJOR (OneCryptoDependencySupport.h line 23). -/
def ONE_CRYPTO_DEPENDENCIES_VERSION_MAJOR : Nat := 1

/-- ONE_CRYPTO_DEPENDENCIES_VERSION_MINOR (OneCryptoDependencySupport.h line 24). -/
def ONE_CRYPTO_DEPENDENCIES_VERSION_MINOR : Nat := 0

/-! ### The capability table buffer

Protocol/OneCrypto.h (the ONE_CRYPTO_PROTOCOL struct definition) is not under
src/.  Modelled from the spec: the capability table is a versioned struct with
a Major/Minor pair at its head followed by function pointers, fields only ever
appended.  The fields written by CryptoInit (OneCryptoBin.c lines 41-340) are,
in source order: Major, Minor, then 213 function pointers (HmacSha256New ...
GetCryptoProviderVersionString).  We model the buffer at field granularity: a
list of slots, slot 0 = Major, slot 1 = Minor, slot 2+k = the k-th function
pointer assigned by CryptoInit; sizes (sizeof(ONE_CRYPTO_PROTOCOL) and
*CryptoSize) are measured in slots. -/

/-- Number of function-pointer assignments in CryptoInit
(OneCryptoBin.c lines 63-339: 215 assignments minus Major and Minor). -/
def cryptoInitFnCount : Nat := 213

/-- sizeof(ONE_CRYPTO_PROTOCOL) in slot units: Major, Minor and the
213 function pointers. -/
def sizeofOneCryptoProtocol : Nat := 2 + cryptoInitFnCount

/-- ONE_CRYPTO_VERSION_MAJOR.  Modelled from the spec: the capability table
carries a major.minor pair; the dependency header comments state the scheme
matches OneCryptoProtocol, whose dependencies version is 1.0. -/
def ONE_CRYPTO_VERSION_MAJOR : Nat := 1

/-- ONE_CRYPTO_VERSION_MINOR (see ONE_CRYPTO_VERSION_MAJOR). -/
def ONE_CRYPTO_VERSION_MINOR : Nat := 0

/-- A caller-provided allocation for the capability table: its current slot
contents, plus a flag recording whether any store targeted a slot at or beyond
the allocation's length (in C such a store writes past the allocation). -/
structure BufState where
  buf : List Nat
  oob : Bool
  deriving DecidableEq, Repr

/-- A single store through the capability-table pointer.  The C performs the
store unconditionally; `oob` records stores past the allocation. -/
def writeSlot (s : BufState) (i v : Nat) : BufState :=
  { buf := s.buf.set i v, oob := s.oob || decide (s.buf.length ≤ i) }

/-- SetMem(*Crypto, n, 0): zero the first n slots, starting at slot i. -/
def setMemZeroAux (s : BufState) (i : Nat) : Nat → BufState
  | 0 => s
  | n + 1 => setMemZeroAux (writeSlot s i 0) (i + 1) n

/-- SetMem(*Crypto, n, 0) (OneCryptoBin.c line 407). -/
def setMemZero (s : BufState) (n : Nat) : BufState :=
  setMemZeroAux s 0 n

/-- The function-pointer assignment loop of CryptoInit: slots 2+k, 2+k+1, ...
receive the addresses fnAddr k, fnAddr (k+1), ... . -/
def writeFnSlots (fnAddr : Nat → Nat) (s : BufState) (k : Nat) : Nat → BufState
  | 0 => s
  | n + 1 => writeFnSlots fnAddr (writeSlot s (2 + k) (fnAddr k)) (k + 1) n

/-- CryptoInit (OneCryptoBin.c lines 41-340): writes the version pair and every
function pointer.  The NULL guard of CryptoInit (line 46) is handled at the
call site: NoSetupCryptoEntry only calls it with a non-null buffer. -/
def CryptoInit (fnAddr : Nat → Nat) (s : BufState) : BufState :=
  writeFnSlots fnAddr
    (writeSlot (writeSlot s 0 ONE_CRYPTO_VERSION_MAJOR) 1 ONE_CRYPTO_VERSION_MINOR)
    0 cryptoInitFnCount

/-- OneCryptoCrtSetup (OneCryptoCrtLib.c lines 38-48): rejects NULL
dependencies, otherwise stores the pointer in mCryptoDependencies. -/
def OneCryptoCrtSetup (deps : Option Dependencies) (crt : Option Dependencies) :
    Status × Option Dependencies :=
  match deps with
  | none => (.invalidParameter, crt)
  | some d => (.success, some d)

/-- Observable outcome of one call of the entry function: returned status,
final value behind the CryptoSize pointer (none when the pointer is null),
final state behind the Crypto pointer (outer none when the pointer is null,
inner none when *Crypto is null), and the CRT library's retained dependency
pointer. -/
structure EntryResult where
  status : Status
  sizeOut : Option Nat
  bufOut : Option (Option BufState)
  crt : Option Dependencies
  deriving DecidableEq, Repr

/-- NoSetupCryptoEntry (OneCryptoBin.c lines 367-415).
Arguments: fnAddr gives the link-time addresses of the crypto primitives wired
in by CryptoInit; depends, crypto, cryptoSize are the three parameters
(crypto models VOID **Crypto: outer Option is the pointer itself, inner Option
the buffer pointer *Crypto); crt is the CRT library's retained dependency
state (mCryptoDependencies). -/
def NoSetupCryptoEntry (fnAddr : Nat → Nat) (depends : Option Dependencies)
    (crypto : Option (Option BufState)) (cryptoSize : Option Nat)
    (crt : Option Dependencies) : EntryResult :=
  -- Always return the size (lines 378-380)
  let sizeOut := cryptoSize.map fun _ => sizeofOneCryptoProtocol
  match crypto with
  | none =>
    -- If Crypto is NULL, this is a size query (lines 385-387)
    { status := .bufferTooSmall, sizeOut := sizeOut, bufOut := none, crt := crt }
  | some inner =>
    -- Initialize the CRT library with the dependencies (lines 392-395)
    let setup := OneCryptoCrtSetup depends crt
    if EFI_ERROR setup.1 then
      { status := setup.1, sizeOut := sizeOut, bufOut := some inner, crt := setup.2 }
    else
      match inner with
      | none =>
        -- Verify the caller provided a valid buffer (lines 400-402)
        { status := .invalidParameter, sizeOut := sizeOut, bufOut := some none,
          crt := setup.2 }
      | some b =>
        -- Zero the buffer, then initialize the protocol (lines 407-412)
        { status := .success, sizeOut := sizeOut,
          bufOut := some (some (CryptoInit fnAddr (setMemZero b sizeofOneCryptoProtocol))),
          crt := setup.2 }

/-- CryptoEntry (OneCryptoBin.c lines 458-478).  baseCryptInitStatus is the
result of BaseCryptInit = OpensslLibConstructor().  Modelled from the spec:
OpensslLibConstructor's implementation is not under src/; per the spec it may
return a passthrough error from underlying primitive-library initialization,
so its status is an input.  On an init error the function returns at once:
*Crypto, *CryptoSize and the CRT state are left unchanged. -/
def CryptoEntry (baseCryptInitStatus : Status) (fnAddr : Nat → Nat)
    (depends : Option Dependencies) (crypto : Option (Option BufState))
    (cryptoSize : Option Nat) (crt : Option Dependencies) : EntryResult :=
  if EFI_ERROR baseCryptInitStatus then
    { status := baseCryptInitStatus, sizeOut := cryptoSize, bufOut := crypto, crt := crt }
  else
    NoSetupCryptoEntry fnAddr depends crypto cryptoSize crt

/-! ### The host PE/COFF loader

Shallow embedding of PeCoffLoadImage
(src/OneCryptoPkg/Test/Fuzz/PeCoffLoaderHost.c, lines 39-299).  The file is a
byte list; the loaded image is a byte list of length SizeOfImage.  File I/O
(fopen/fread) and mmap are outside the model: the function takes the file
contents and is assumed to get its allocation.  The load-address delta
(LoadedImage - OptHeader->ImageBase, an int64_t fixed at run time by mmap) is
a parameter.  Reads out of range yield 0 (in C they are undefined behaviour);
flags record out-of-bounds reads of the file, out-of-bounds section/header
copies into the image, and out-of-bounds relocation fixup writes. -/

/-- Read one byte of a buffer; out-of-range reads yield 0. -/
def byte (f : List Nat) (i : Nat) : Nat := f.getD i 0

/-- Little-endian 16-bit read. -/
def le16 (f : List Nat) (i : Nat) : Nat := byte f i + 2 ^ 8 * byte f (i + 1)

/-- Little-endian 32-bit read. -/
def le32 (f : List Nat) (i : Nat) : Nat :=
  byte f i + 2 ^ 8 * byte f (i + 1) + 2 ^ 16 * byte f (i + 2) + 2 ^ 24 * byte f (i + 3)

/-- Little-endian 64-bit read. -/
def le64 (f : List Nat) (i : Nat) : Nat := le32 f i + 2 ^ 32 * le32 f (i + 4)

/-- Little-endian 32-bit store of v % 2^32. -/
def write32 (l : List Nat) (i v : Nat) : List Nat :=
  ((((l.set i (v % 2 ^ 8)).set (i + 1) (v / 2 ^ 8 % 2 ^ 8)).set
      (i + 2) (v / 2 ^ 16 % 2 ^ 8)).set (i + 3) (v / 2 ^ 24 % 2 ^ 8))

/-- Little-endian 64-bit store of v % 2^64. -/
def write64 (l : List Nat) (i v : Nat) : List Nat :=
  write32 (write32 l i (v % 2 ^ 32)) (i + 4) (v / 2 ^ 32)

/-- memcpy of len bytes from src at so into dst at di (byte by byte; stores
past the end of dst are dropped by List.set, the caller records the flag). -/
def copyBytes (src : List Nat) (so : Nat) (dst : List Nat) (di : Nat) : Nat → List Nat
  | 0 => dst
  | n + 1 => copyBytes src (so + 1) (dst.set di (byte src so)) (di + 1) n

/-- The loader's mutable image together with the undefined-behaviour record:
oobRead - some read of FileData went past FileSize; oobWrite - some
header/section copy stored past the image allocation; oobFixup - some
HIGHLOW/DIR64 relocation write targeted bytes past the image allocation;
reported - the relocation types reported as unsupported, in order. -/
structure MappedImage where
  img : List Nat
  oobRead : Bool
  oobWrite : Bool
  oobFixup : Bool
  reported : List Nat
  deriving DecidableEq, Repr

/-- One 16-bit relocation entry (PeCoffLoaderHost.c lines 261-280).  The entry
word, the block's page RVA and the fixup field are all read from the current
image, as the C dereferences them each iteration.  ABSOLUTE (0) is a no-op;
DIR64 (10) adds the 64-bit delta mod 2^64; HIGHLOW (3) adds the truncated
delta mod 2^32; any other type is recorded as reported and skipped.  The C
performs the fixup store with no bounds check; oobFixup records stores whose
range exceeds the image. -/
def applyEntry (delta : Int) (pos : Nat) (m : MappedImage) (j : Nat) : MappedImage :=
  let e := le16 m.img (pos + 8 + 2 * j)
  let ty := e / 2 ^ 12
  let off := e % 2 ^ 12
  let fixup := le32 m.img pos + off
  if ty = 0 then m
  else if ty = 10 then
    { m with
      img := write64 m.img fixup (((le64 m.img fixup : Int) + delta) % (2 ^ 64 : Int)).toNat,
      oobFixup := m.oobFixup || decide (m.img.length < fixup + 8) }
  else if ty = 3 then
    { m with
      img := write32 m.img fixup (((le32 m.img fixup : Int) + delta) % (2 ^ 32 : Int)).toNat,
      oobFixup := m.oobFixup || decide (m.img.length < fixup + 4) }
  else
    { m with reported := m.reported ++ [ty] }

/-- The inner for-loop over a block's entries (lines 261-280): entries j,
j+1, ... for n iterations. -/
def applyEntries (delta : Int) (pos : Nat) (m : MappedImage) (j : Nat) : Nat → MappedImage
  | 0 => m
  | n + 1 => applyEntries delta pos (applyEntry delta pos m j) (j + 1) n

/-- The while-loop over relocation blocks (lines 253-283).  A block at pos is
processed while pos < relocEnd and its SizeOfBlock (read from the current
image) is non-zero; NumRelocs is (SizeOfBlock - 8) / 2 in uint32 arithmetic
(a SizeOfBlock below 8 wraps); afterwards SizeOfBlock is re-read (fixups may
have changed it) and pos advances by it.  The C loop exits when the re-read
SizeOfBlock is 0 (next condition check) - modelled directly.  fuel bounds the
recursion; the caller passes RelocSize + 2, enough because pos strictly
increases on every recursive call. -/
def relocWalk (delta : Int) (relocEnd : Nat) : Nat → Nat → MappedImage → MappedImage
  | 0, _, m => m
  | fuel + 1, pos, m =>
    if pos < relocEnd ∧ 0 < le32 m.img (pos + 4) then
      let blockSize := le32 m.img (pos + 4)
      let numRelocs := (blockSize + 2 ^ 32 - 8) % 2 ^ 32 / 2
      let m' := applyEntries delta pos m 0 numRelocs
      let nb := le32 m'.img (pos + 4)
      if nb = 0 then m' else relocWalk delta relocEnd fuel (pos + nb) m'
    else m

/-- Offset of the PE32+ optional header: le32 at 0x3C (the PE-offset field)
plus the 4-byte PE signature plus the 20-byte COFF file header. -/
def optOff (f : List Nat) : Nat := le32 f 60 + 24

/-- The relocation pass (lines 229-289).  Runs only when delta is non-zero;
reads NumberOfRvaAndSizes (optional header offset 108) and data directory 5
(offsets 152/156) from the file, as the C reads them through OptHeader which
points into FileData; block contents are read from the image. -/
def relocPhase (f : List Nat) (delta : Int) (m : MappedImage) : MappedImage :=
  if delta = 0 then m
  else
    let opt := optOff f
    if 5 < le32 f (opt + 108) then
      let relocVA := le32 f (opt + 152)
      let relocSize := le32 f (opt + 156)
      if relocVA ≠ 0 ∧ 0 < relocSize then
        relocWalk delta (relocVA + relocSize) (relocSize + 2) relocVA m
      else m
    else m

/-- The section-copy loop (lines 191-224).  Section header i sits at
secBase + 40 * i; reading it past the file end is recorded in oobRead.  For a
section with SizeOfRawData > 0 the two bounds checks are performed exactly as
in the C: the sums PointerToRawData + SizeOfRawData and
VirtualAddress + SizeOfRawData are computed in uint32 arithmetic (mod 2^32,
they can wrap) and compared against FileSize and SizeOfImage.  If both pass,
the copy is performed with the unwrapped values; oobRead/oobWrite record a
source or destination range that actually exceeds the respective buffer. -/
def loadSections (f : List Nat) (secBase sizeOfImage : Nat) :
    Nat → Nat → MappedImage → Except String MappedImage
  | _, 0, m => .ok m
  | i, n + 1, m =>
    let so := secBase + 40 * i
    let virtualAddress := le32 f (so + 12)
    let sizeOfRawData := le32 f (so + 16)
    let pointerToRawData := le32 f (so + 20)
    let m := { m with oobRead := m.oobRead || decide (f.length < so + 40) }
    if 0 < sizeOfRawData then
      if f.length < (pointerToRawData + sizeOfRawData) % 2 ^ 32 then
        .error "Section data out of bounds"
      else if sizeOfImage < (virtualAddress + sizeOfRawData) % 2 ^ 32 then
        .error "Section VA out of bounds"
      else
        loadSections f secBase sizeOfImage (i + 1) n
          { m with
            img := copyBytes f pointerToRawData m.img virtualAddress sizeOfRawData,
            oobRead := m.oobRead || decide (f.length < pointerToRawData + sizeOfRawData),
            oobWrite := m.oobWrite || decide (sizeOfImage < virtualAddress + sizeOfRawData) }
    else loadSections f secBase sizeOfImage (i + 1) n m

/-- PeCoffLoadImage (PeCoffLoaderHost.c lines 39-299) on the file contents f
with load-address delta.  Validation sequence as in the source: file length
at least 64; "MZ"; PeOffset + 4 + sizeof(PE_COFF_FILE_HEADER) within the
file; "PE\0\0"; PE32+ magic 0x20B.  Then the image is zero-allocated at
SizeOfImage, SizeOfHeaders bytes are copied, the sections are copied, and the
relocation pass runs. -/
def PeCoffLoadImage (f : List Nat) (delta : Int) : Except String MappedImage :=
  if f.length < 64 then .error "File too small"
  else if le16 f 0 ≠ 0x5A4D then .error "Invalid DOS signature"
  else
    let peOffset := le32 f 60
    if f.length < peOffset + 4 + 20 then .error "PE offset out of bounds"
    else if le32 f peOffset ≠ 0x4550 then .error "Invalid PE signature"
    else if le16 f (peOffset + 24) ≠ 0x20B then .error "Only PE32+ supported"
    else
      let opt := peOffset + 24
      let sizeOfImage := le32 f (opt + 56)
      let sizeOfHeaders := le32 f (opt + 60)
      let numberOfSections := le16 f (peOffset + 6)
      let sizeOfOptionalHeader := le16 f (peOffset + 20)
      let m0 : MappedImage :=
        { img := copyBytes f 0 (List.replicate sizeOfImage 0) 0 sizeOfHeaders,
          oobRead := decide (f.length < sizeOfHeaders),
          oobWrite := decide (sizeOfImage < sizeOfHeaders),
          oobFixup := false, reported := [] }
      match loadSections f (opt + sizeOfOptionalHeader) sizeOfImage 0 numberOfSections m0 with
      | .error e => .error e
      | .ok m => .ok (relocPhase f delta m)

/-! ### Loader bootstrap sequences

The three loaders run the same two-call protocol (size query, allocate,
populate).  Firmware services (section lookup, LoadImage, protocol lookup,
allocation, install) are external collaborators; their outcomes are oracle
inputs.  The resolved entry function's observable behaviour at the two calls
is an oracle for the two DXE loaders (the binary is loaded at run time); the
host loader is linked against CryptoEntry directly, so it composes with the
CryptoEntry model above. -/

/-- Observable behaviour of the resolved entry function at the loader's two
calls: the status and *CryptoSize value produced by the size-query call, and
the status produced by the populate call. -/
structure EntryOracle where
  sizeQueryStatus : Status
  sizeQuerySize : Nat
  populateStatus : Status
  deriving DecidableEq, Repr

/-- Outcome of one loader bootstrap: the returned status; whether FreePool/free
was called on the capability-table allocation; whether the loader's retained
capability pointer ends non-null; whether protocol installation was invoked. -/
structure LoaderResult where
  status : Status
  protocolFreed : Bool
  retained : Bool
  installed : Bool
  deriving DecidableEq, Repr

/-- Environment of OneCryptoLoaderDxe's DxeEntryPoint: outcomes of
GetSectionFromAnyFv, LoadImage, HandleProtocol (plus whether the returned
LoadedImage pointer is null), GetEntryFromLoadedImage, the two AllocatePool
calls, InstallMultipleProtocolInterfaces, and the entry oracle. -/
structure DxeEnv where
  getSectionStatus : Status
  loadImageStatus : Status
  handleProtocolStatus : Status
  loadedImageNull : Bool
  getEntryStatus : Status
  dependsAllocOk : Bool
  protocolAllocOk : Bool
  installStatus : Status
  entry : EntryOracle
  deriving DecidableEq, Repr

/-- DxeEntryPoint of OneCryptoLoaderDxe.c (lines 262-423).  mDependsNull is
the initial state of the retained dependency pointer (null until first
success).  On a GetSectionFromAnyFv error the function returns EFI_NOT_READY
directly (line 307); every later failure goes through the Exit label and
returns the prevailing status.  On a populate failure the capability
allocation is freed and the retained pointer reset (lines 381-386); install
runs only after a successful populate. -/
def DxeLoaderEntryPoint (env : DxeEnv) (mDependsNull : Bool) : LoaderResult :=
  if mDependsNull ∧ ¬env.dependsAllocOk then
    { status := .outOfResources, protocolFreed := false, retained := false, installed := false }
  else if EFI_ERROR env.getSectionStatus then
    { status := .notReady, protocolFreed := false, retained := false, installed := false }
  else if EFI_ERROR env.loadImageStatus then
    { status := env.loadImageStatus, protocolFreed := false, retained := false, installed := false }
  else if EFI_ERROR env.handleProtocolStatus ∨ env.loadedImageNull then
    { status := env.handleProtocolStatus, protocolFreed := false, retained := false,
      installed := false }
  else if EFI_ERROR env.getEntryStatus then
    { status := env.getEntryStatus, protocolFreed := false, retained := false, installed := false }
  else if env.entry.sizeQueryStatus ≠ .bufferTooSmall ∨ env.entry.sizeQuerySize = 0 then
    { status := env.entry.sizeQueryStatus, protocolFreed := false, retained := false,
      installed := false }
  else if ¬env.protocolAllocOk then
    { status := .outOfResources, protocolFreed := false, retained := false, installed := false }
  else if EFI_ERROR env.entry.populateStatus then
    { status := env.entry.populateStatus, protocolFreed := true, retained := false,
      installed := false }
  else if EFI_ERROR env.installStatus then
    { status := env.installStatus, protocolFreed := false, retained := true, installed := true }
  else
    { status := .success, protocolFreed := false, retained := true, installed := true }

/-- Environment of OneCryptoLoaderDxeByProtocol's DxeEntryPoint: outcomes of
LocateProtocol, the signature and entry-pointer checks on the located
constructor protocol, the two allocations, install, and the entry oracle. -/
structure ByProtocolEnv where
  locateStatus : Status
  signatureOk : Bool
  entryNull : Bool
  dependsAllocOk : Bool
  protocolAllocOk : Bool
  installStatus : Status
  entry : EntryOracle
  deriving DecidableEq, Repr

/-- DxeEntryPoint of OneCryptoLoaderDxeByProtocol.c (lines 160-274).  A bad
protocol signature yields EFI_OUT_OF_RESOURCES (line 185), a null entry
pointer EFI_UNSUPPORTED (line 196).  On a populate failure the capability
allocation is freed and the retained global OneCryptoProtocol reset
(lines 241-242). -/
def DxeByProtocolEntryPoint (env : ByProtocolEnv) (mDependsNull : Bool) : LoaderResult :=
  if EFI_ERROR env.locateStatus then
    { status := env.locateStatus, protocolFreed := false, retained := false, installed := false }
  else if ¬env.signatureOk then
    { status := .outOfResources, protocolFreed := false, retained := false, installed := false }
  else if env.entryNull then
    { status := .unsupported, protocolFreed := false, retained := false, installed := false }
  else if mDependsNull ∧ ¬env.dependsAllocOk then
    { status := .outOfResources, protocolFreed := false, retained := false, installed := false }
  else if env.entry.sizeQueryStatus ≠ .bufferTooSmall ∨ env.entry.sizeQuerySize = 0 then
    { status := env.entry.sizeQueryStatus, protocolFreed := false, retained := false,
      installed := false }
  else if ¬env.protocolAllocOk then
    { status := .outOfResources, protocolFreed := false, retained := false, installed := false }
  else if EFI_ERROR env.entry.populateStatus then
    { status := env.entry.populateStatus, protocolFreed := true, retained := false,
      installed := false }
  else if EFI_ERROR env.installStatus then
    { status := env.installStatus, protocolFreed := false, retained := true, installed := true }
  else
    { status := .success, protocolFreed := false, retained := true, installed := true }

/-- The host dependency table built by InitializeHostDependencies
(OneCryptoLoaderHost.c lines 230-245): version 1.0, reserved 0, and the five
host service functions (their addresses modelled as distinct handles). -/
def hostDependencies : Dependencies :=
  { major := ONE_CRYPTO_DEPENDENCIES_VERSION_MAJOR,
    minor := ONE_CRYPTO_DEPENDENCIES_VERSION_MINOR,
    reserved := 0, allocatePool := 1, freePool := 2, getTime := 3,
    debugPrint := 4, getRandomNumber64 := 5 }

/-- OneCryptoHostLoaderInit (OneCryptoLoaderHost.c lines 277-331), composed
with the CryptoEntry model: init1/init2 are the BaseCryptInit outcomes of the
two CryptoEntry calls (modelled from the spec, see CryptoEntry), mallocOk the
malloc outcome, buf0 the malloc'd (uninitialized) capability allocation.  A
size query not answering BUFFER_TOO_SMALL with a non-zero size yields
EFI_PROTOCOL_ERROR; a populate failure frees the allocation and propagates
the status, leaving the retained mOneCryptoProtocol null. -/
def OneCryptoHostLoaderInit (fnAddr : Nat → Nat) (init1 init2 : Status)
    (mallocOk : Bool) (buf0 : List Nat) : LoaderResult :=
  let q := CryptoEntry init1 fnAddr (some hostDependencies) none (some 0) none
  let size := q.sizeOut.getD 0
  if q.status ≠ .bufferTooSmall ∨ size = 0 then
    { status := .protocolError, protocolFreed := false, retained := false, installed := false }
  else if ¬mallocOk then
    { status := .outOfResources, protocolFreed := false, retained := false, installed := false }
  else
    let p := CryptoEntry init2 fnAddr (some hostDependencies)
      (some (some { buf := buf0, oob := false })) (some size) q.crt
    if EFI_ERROR p.status then
      { status := p.status, protocolFreed := true, retained := false, installed := false }
    else
      { status := .success, protocolFreed := false, retained := true, installed := false }

/-! ### Helper lemmas on the capability buffer -/

/-- Read one slot of a capability buffer (out of range reads 0). -/
def slot (s : BufState) (i : Nat) : Nat := s.buf.getD i 0

theorem getD_set_self : ∀ (l : List Nat) (i v : Nat), i < l.length →
    (l.set i v).getD i 0 = v := by
  intro l
  induction l with
  | nil => intro i v h; simp at h
  | cons a t ih =>
    intro i v h
    cases i with
    | zero => simp
    | succ j => simpa using ih j v (by simpa using h)

theorem getD_set_other : ∀ (l : List Nat) (i v j : Nat), j ≠ i →
    (l.set i v).getD j 0 = l.getD j 0 := by
  intro l
  induction l with
  | nil => intro i v j _; simp
  | cons a t ih =>
    intro i v j hne
    cases i with
    | zero =>
      cases j with
      | zero => exact absurd rfl hne
      | succ j => simp
    | succ i =>
      cases j with
      | zero => simp
      | succ j => simpa using ih i v j (by omega)

theorem writeSlot_length (s : BufState) (i v : Nat) :
    (writeSlot s i v).buf.length = s.buf.length := by
  simp [writeSlot]

theorem slot_writeSlot_self (s : BufState) (i v : Nat) (h : i < s.buf.length) :
    slot (writeSlot s i v) i = v :=
  getD_set_self s.buf i v h

theorem slot_writeSlot_other (s : BufState) (i v j : Nat) (h : j ≠ i) :
    slot (writeSlot s i v) j = slot s j :=
  getD_set_other s.buf i v j h

theorem setMemZeroAux_length : ∀ (n i : Nat) (s : BufState),
    (setMemZeroAux s i n).buf.length = s.buf.length := by
  intro n
  induction n with
  | zero => intro i s; rfl
  | succ m ih => intro i s; rw [setMemZeroAux, ih, writeSlot_length]

theorem setMemZeroAux_oob_mono : ∀ (n i : Nat) (s : BufState), s.oob = true →
    (setMemZeroAux s i n).oob = true := by
  intro n
  induction n with
  | zero => intro i s h; exact h
  | succ m ih => intro i s h; rw [setMemZeroAux]; exact ih _ _ (by simp [writeSlot, h])

/-- SetMem on a buffer shorter than the requested size performs a store past
the allocation's end. -/
theorem setMemZeroAux_oob : ∀ (n i : Nat) (s : BufState), i ≤ s.buf.length →
    s.buf.length < i + n → (setMemZeroAux s i n).oob = true := by
  intro n
  induction n with
  | zero => intro i s h1 h2; omega
  | succ m ih =>
    intro i s h1 h2
    rw [setMemZeroAux]
    by_cases hc : s.buf.length ≤ i
    · exact setMemZeroAux_oob_mono _ _ _ (by simp [writeSlot, hc])
    · exact ih (i + 1) _ (by rw [writeSlot_length]; omega) (by rw [writeSlot_length]; omega)

theorem writeFnSlots_length : ∀ (n k : Nat) (fnAddr : Nat → Nat) (s : BufState),
    (writeFnSlots fnAddr s k n).buf.length = s.buf.length := by
  intro n
  induction n with
  | zero => intro k fnAddr s; rfl
  | succ m ih => intro k fnAddr s; rw [writeFnSlots, ih, writeSlot_length]

theorem writeFnSlots_oob_mono : ∀ (n k : Nat) (fnAddr : Nat → Nat) (s : BufState),
    s.oob = true → (writeFnSlots fnAddr s k n).oob = true := by
  intro n
  induction n with
  | zero => intro k fnAddr s h; exact h
  | succ m ih => intro k fnAddr s h; rw [writeFnSlots]; exact ih _ _ _ (by simp [writeSlot, h])

/-- Slots below 2 + k are untouched by the function-pointer write loop. -/
theorem slot_writeFnSlots_lt : ∀ (n k : Nat) (fnAddr : Nat → Nat) (s : BufState) (j : Nat),
    j < 2 + k → slot (writeFnSlots fnAddr s k n) j = slot s j := by
  intro n
  induction n with
  | zero => intro k fnAddr s j _; rfl
  | succ m ih =>
    intro k fnAddr s j hj
    rw [writeFnSlots, ih _ _ _ _ (by omega), slot_writeSlot_other _ _ _ _ (by omega)]

/-- Slots at or above 2 + k + n are untouched by the function-pointer write
loop. -/
theorem slot_writeFnSlots_ge : ∀ (n k : Nat) (fnAddr : Nat → Nat) (s : BufState) (j : Nat),
    2 + k + n ≤ j → slot (writeFnSlots fnAddr s k n) j = slot s j := by
  intro n
  induction n with
  | zero => intro k fnAddr s j _; rfl
  | succ m ih =>
    intro k fnAddr s j hj
    rw [writeFnSlots, ih _ _ _ _ (by omega), slot_writeSlot_other _ _ _ _ (by omega)]

/-- Every slot 2 + j with k ≤ j < k + n receives fnAddr j. -/
theorem slot_writeFnSlots_in : ∀ (n k : Nat) (fnAddr : Nat → Nat) (s : BufState) (j : Nat),
    k ≤ j → j < k + n → 2 + j < s.buf.length →
    slot (writeFnSlots fnAddr s k n) (2 + j) = fnAddr j := by
  intro n
  induction n with
  | zero => intro k fnAddr s j h1 h2 _; omega
  | succ m ih =>
    intro k fnAddr s j h1 h2 h3
    rw [writeFnSlots]
    by_cases hj : j = k
    · subst hj
      rw [slot_writeFnSlots_lt _ _ _ _ _ (by omega)]
      exact slot_writeSlot_self _ _ _ h3
    · exact ih (k + 1) fnAddr _ j (by omega) (by omega) (by rw [writeSlot_length]; exact h3)

theorem CryptoInit_length (fnAddr : Nat → Nat) (s : BufState) :
    (CryptoInit fnAddr s).buf.length = s.buf.length := by
  rw [CryptoInit, writeFnSlots_length, writeSlot_length, writeSlot_length]

theorem CryptoInit_oob_mono (fnAddr : Nat → Nat) (s : BufState) (h : s.oob = true) :
    (CryptoInit fnAddr s).oob = true := by
  rw [CryptoInit]
  exact writeFnSlots_oob_mono _ _ _ _ (by simp [writeSlot, h])

/-- Slots at or above i + n are untouched by the zeroing loop. -/
theorem slot_setMemZeroAux_ge : ∀ (n i : Nat) (s : BufState) (j : Nat),
    i + n ≤ j → slot (setMemZeroAux s i n) j = slot s j := by
  intro n
  induction n with
  | zero => intro i s j _; rfl
  | succ m ih =>
    intro i s j hj
    rw [setMemZeroAux, ih _ _ _ (by omega), slot_writeSlot_other _ _ _ _ (by omega)]

/-! ### Claims C3, C5, C6, C10: the entry-function protocol -/

/-- C3, counterexample to the claim as stated: with the underlying library
initialization failing (here with EFI_OUT_OF_RESOURCES, a passthrough the
spec's interface section itself lists), a size-query call of CryptoEntry
(Crypto = NULL, CryptoSize non-null) returns the passthrough error, not
EFI_BUFFER_TOO_SMALL, and leaves *CryptoSize unwritten (still 0). -/
theorem c3_counterexample :
    (CryptoEntry .outOfResources (fun k => k) (some hostDependencies) none
        (some 0) none).status = .outOfResources
    ∧ Status.outOfResources ≠ Status.bufferTooSmall
    ∧ (CryptoEntry .outOfResources (fun k => k) (some hostDependencies) none
        (some 0) none).sizeOut = some 0 :=
  ⟨rfl, by decide, rfl⟩

/-- C3 (amended): a size-query call (Crypto = NULL, CryptoSize non-null) of
NoSetupCryptoEntry always writes sizeof(ONE_CRYPTO_PROTOCOL) to *CryptoSize
and returns EFI_BUFFER_TOO_SMALL, for every dependency argument; CryptoEntry
behaves identically whenever BaseCryptInit succeeds, and otherwise returns the
passthrough initialization error without touching *CryptoSize. -/
theorem c3_size_query_contract :
    (∀ (fnAddr : Nat → Nat) (depends : Option Dependencies) (old : Nat)
       (crt : Option Dependencies),
       (NoSetupCryptoEntry fnAddr depends none (some old) crt).status = .bufferTooSmall
       ∧ (NoSetupCryptoEntry fnAddr depends none (some old) crt).sizeOut
           = some sizeofOneCryptoProtocol)
    ∧ (∀ (init : Status) (fnAddr : Nat → Nat) (depends : Option Dependencies)
         (crypto : Option (Option BufState)) (cryptoSize : Option Nat)
         (crt : Option Dependencies), EFI_ERROR init = false →
         CryptoEntry init fnAddr depends crypto cryptoSize crt
           = NoSetupCryptoEntry fnAddr depends crypto cryptoSize crt)
    ∧ (∀ (init : Status) (fnAddr : Nat → Nat) (depends : Option Dependencies)
         (old : Nat) (crt : Option Dependencies), EFI_ERROR init = true →
         (CryptoEntry init fnAddr depends none (some old) crt).status = init
         ∧ (CryptoEntry init fnAddr depends none (some old) crt).sizeOut = some old) :=
  ⟨fun _ _ _ _ => ⟨rfl, rfl⟩,
   fun _ _ _ _ _ _ h => by simp [CryptoEntry, h],
   fun _ _ _ _ _ h => by simp [CryptoEntry, h]⟩

/-- C3, witness for the amended theorem at concrete inputs. -/
theorem c3_witness :
    (NoSetupCryptoEntry (fun k => k) none none (some 7) none).status = .bufferTooSmall
    ∧ EFI_ERROR .success = false
    ∧ CryptoEntry .success (fun k => k) none none (some 7) none
        = NoSetupCryptoEntry (fun k => k) none none (some 7) none :=
  ⟨(c3_size_query_contract.1 (fun k => k) none 7 none).1, rfl,
   c3_size_query_contract.2.1 .success (fun k => k) none none (some 7) none rfl⟩

/-- A capability allocation one slot smaller than sizeof(ONE_CRYPTO_PROTOCOL),
holding arbitrary prior contents (7s). -/
def undersizedBuf : BufState :=
  { buf := List.replicate (sizeofOneCryptoProtocol - 1) 7, oob := false }

/-- C5, counterexample to the claim as stated: a populate call whose declared
*CryptoSize and actual allocation are one slot short of
sizeof(ONE_CRYPTO_PROTOCOL) is not rejected - it returns EFI_SUCCESS - and the
zero-then-initialize writes run past the allocation's end (oob flag set). -/
theorem c5_counterexample :
    (NoSetupCryptoEntry (fun k => k) (some hostDependencies) (some (some undersizedBuf))
        (some (sizeofOneCryptoProtocol - 1)) none).status = .success
    ∧ EFI_ERROR .success = false
    ∧ ((NoSetupCryptoEntry (fun k => k) (some hostDependencies) (some (some undersizedBuf))
        (some (sizeofOneCryptoProtocol - 1)) none).bufOut.map
          (Option.map BufState.oob)) = some (some true) := by
  refine ⟨rfl, rfl, ?_⟩
  decide

/-- C5 (amended): the entry function ignores the caller's declared
*CryptoSize entirely: every populate call with non-null dependencies and a
non-null buffer returns EFI_SUCCESS, and when the allocation is smaller than
sizeof(ONE_CRYPTO_PROTOCOL) the SetMem/CryptoInit stores run past the
allocation's end (recorded as oob = true) instead of being rejected. -/
theorem c5_no_size_check :
    ∀ (fnAddr : Nat → Nat) (deps : Dependencies) (b : BufState) (old : Nat)
      (crt : Option Dependencies),
      (NoSetupCryptoEntry fnAddr (some deps) (some (some b)) (some old) crt).status = .success
      ∧ (b.buf.length < sizeofOneCryptoProtocol →
          (NoSetupCryptoEntry fnAddr (some deps) (some (some b)) (some old) crt).bufOut
            = some (some (CryptoInit fnAddr (setMemZero b sizeofOneCryptoProtocol)))
          ∧ (CryptoInit fnAddr (setMemZero b sizeofOneCryptoProtocol)).oob = true) := by
  intro fnAddr deps b old crt
  refine ⟨rfl, fun h => ⟨rfl, ?_⟩⟩
  exact CryptoInit_oob_mono _ _
    (setMemZeroAux_oob sizeofOneCryptoProtocol 0 b (Nat.zero_le _) (by omega))

/-- C5, witness for the amended theorem at a concrete undersized allocation. -/
theorem c5_witness :
    undersizedBuf.buf.length < sizeofOneCryptoProtocol
    ∧ (NoSetupCryptoEntry (fun k => k) (some hostDependencies) (some (some undersizedBuf))
        (some 3) none).status = .success
    ∧ (CryptoInit (fun k => k) (setMemZero undersizedBuf sizeofOneCryptoProtocol)).oob
        = true :=
  ⟨by decide,
   (c5_no_size_check (fun k => k) hostDependencies undersizedBuf 3 none).1,
   ((c5_no_size_check (fun k => k) hostDependencies undersizedBuf 3 none).2 (by decide)).2⟩

/-- C6, counterexample to the claim as stated: a call with a null dependency
table but a null Crypto pointer (a size query) returns EFI_BUFFER_TOO_SMALL,
not EFI_INVALID_PARAMETER - the dependency pointer is never examined on the
size-query path. -/
theorem c6_counterexample :
    (NoSetupCryptoEntry (fun k => k) none none (some 5) none).status = .bufferTooSmall
    ∧ Status.bufferTooSmall ≠ Status.invalidParameter :=
  ⟨rfl, by decide⟩

/-- C6 (amended): restricted to populate calls (Crypto non-null),
NoSetupCryptoEntry returns EFI_INVALID_PARAMETER exactly when the dependency
table is null or the buffer pointer *Crypto is null; a size-query call
(Crypto null) returns EFI_BUFFER_TOO_SMALL regardless of the dependency
table. -/
theorem c6_invalid_parameter_iff :
    ∀ (fnAddr : Nat → Nat) (depends : Option Dependencies) (inner : Option BufState)
      (old : Nat) (crt : Option Dependencies),
      ((NoSetupCryptoEntry fnAddr depends (some inner) (some old) crt).status
          = .invalidParameter ↔ (depends = none ∨ inner = none))
      ∧ (NoSetupCryptoEntry fnAddr depends none (some old) crt).status = .bufferTooSmall := by
  intro fnAddr depends inner old crt
  cases depends <;> cases inner <;>
    simp [NoSetupCryptoEntry, OneCryptoCrtSetup, EFI_ERROR]

/-- An exactly sized capability allocation with arbitrary prior contents. -/
def exactBuf : BufState :=
  { buf := List.replicate sizeofOneCryptoProtocol 9, oob := false }

/-- C10: in NoSetupCryptoEntry, *CryptoSize (when its pointer is non-null)
receives sizeof(ONE_CRYPTO_PROTOCOL) on every path, including the
invalid-parameter ones; a size query with a null CryptoSize pointer still
returns EFI_BUFFER_TOO_SMALL touching nothing; a successful populate zeroes
the first sizeof(ONE_CRYPTO_PROTOCOL) slots and then writes the Major/Minor
version pair and all 213 function pointers, leaving slots beyond
sizeof(ONE_CRYPTO_PROTOCOL) untouched; and CryptoEntry delegates to
NoSetupCryptoEntry whenever library initialization succeeds. -/
theorem c10_entry_size_and_zeroing :
    (∀ (fnAddr : Nat → Nat) (depends : Option Dependencies)
       (crypto : Option (Option BufState)) (old : Nat) (crt : Option Dependencies),
       (NoSetupCryptoEntry fnAddr depends crypto (some old) crt).sizeOut
         = some sizeofOneCryptoProtocol)
    ∧ (∀ (fnAddr : Nat → Nat) (depends : Option Dependencies) (crt : Option Dependencies),
        NoSetupCryptoEntry fnAddr depends none none crt
          = { status := .bufferTooSmall, sizeOut := none, bufOut := none, crt := crt })
    ∧ (∀ (fnAddr : Nat → Nat) (deps : Dependencies) (b : BufState) (old : Nat)
         (crt : Option Dependencies),
         sizeofOneCryptoProtocol ≤ b.buf.length →
         (NoSetupCryptoEntry fnAddr (some deps) (some (some b)) (some old) crt).bufOut
           = some (some (CryptoInit fnAddr (setMemZero b sizeofOneCryptoProtocol)))
         ∧ slot (CryptoInit fnAddr (setMemZero b sizeofOneCryptoProtocol)) 0
             = ONE_CRYPTO_VERSION_MAJOR
         ∧ slot (CryptoInit fnAddr (setMemZero b sizeofOneCryptoProtocol)) 1
             = ONE_CRYPTO_VERSION_MINOR
         ∧ (∀ k, k < cryptoInitFnCount →
             slot (CryptoInit fnAddr (setMemZero b sizeofOneCryptoProtocol)) (2 + k)
               = fnAddr k)
         ∧ (∀ j, sizeofOneCryptoProtocol ≤ j →
             slot (CryptoInit fnAddr (setMemZero b sizeofOneCryptoProtocol)) j = slot b j))
    ∧ (∀ (init : Status) (fnAddr : Nat → Nat) (depends : Option Dependencies)
         (crypto : Option (Option BufState)) (cryptoSize : Option Nat)
         (crt : Option Dependencies), EFI_ERROR init = false →
         CryptoEntry init fnAddr depends crypto cryptoSize crt
           = NoSetupCryptoEntry fnAddr depends crypto cryptoSize crt) := by
  refine ⟨?_, ?_, ?_, ?_⟩
  · intro fnAddr depends crypto old crt
    match crypto with
    | none => rfl
    | some inner =>
      match depends with
      | none => rfl
      | some d =>
        match inner with
        | none => rfl
        | some b => rfl
  · intro fnAddr depends crt; rfl
  · intro fnAddr deps b old crt hlen
    have hz : (setMemZero b sizeofOneCryptoProtocol).buf.length = b.buf.length :=
      setMemZeroAux_length _ _ _
    have hsz : sizeofOneCryptoProtocol = 215 := rfl
    have hfc : cryptoInitFnCount = 213 := rfl
    refine ⟨rfl, ?_, ?_, ?_, ?_⟩
    · rw [CryptoInit, slot_writeFnSlots_lt _ _ _ _ _ (by omega),
        slot_writeSlot_other _ _ _ _ (by omega)]
      exact slot_writeSlot_self _ _ _ (by rw [hz]; omega)
    · rw [CryptoInit, slot_writeFnSlots_lt _ _ _ _ _ (by omega)]
      exact slot_writeSlot_self _ _ _ (by rw [writeSlot_length, hz]; omega)
    · intro k hk
      rw [CryptoInit]
      exact slot_writeFnSlots_in _ _ _ _ _ (Nat.zero_le _) (by omega)
        (by rw [writeSlot_length, writeSlot_length, hz]; omega)
    · intro j hj
      have hj' : 2 + 0 + cryptoInitFnCount ≤ j := by omega
      rw [CryptoInit, slot_writeFnSlots_ge _ _ _ _ _ hj',
        slot_writeSlot_other _ _ _ _ (by omega), slot_writeSlot_other _ _ _ _ (by omega)]
      exact slot_setMemZeroAux_ge _ _ _ _ (by omega)
  · intro init fnAddr depends crypto cryptoSize crt h
    simp [CryptoEntry, h]

/-- C10, witness at a concrete exactly sized allocation. -/
theorem c10_witness :
    sizeofOneCryptoProtocol ≤ exactBuf.buf.length
    ∧ slot (CryptoInit (fun k => 100 + k) (setMemZero exactBuf sizeofOneCryptoProtocol)) 0
        = ONE_CRYPTO_VERSION_MAJOR
    ∧ slot (CryptoInit (fun k => 100 + k) (setMemZero exactBuf sizeofOneCryptoProtocol)) 2
        = 100
    ∧ EFI_ERROR .success = false
    ∧ CryptoEntry .success (fun k => 100 + k) (some hostDependencies)
        (some (some exactBuf)) (some 0) none
        = NoSetupCryptoEntry (fun k => 100 + k) (some hostDependencies)
            (some (some exactBuf)) (some 0) none := by
  have h := c10_entry_size_and_zeroing.2.2.1 (fun k => 100 + k) hostDependencies exactBuf 0
    none (by decide)
  exact ⟨by decide, h.2.1, by simpa using h.2.2.2.1 0 (by decide), rfl,
    c10_entry_size_and_zeroing.2.2.2 .success (fun k => 100 + k) (some hostDependencies)
      (some (some exactBuf)) (some 0) none rfl⟩

/-! ### Claim C9: failure of the populate call in the three loaders -/

/-- C9: in each of the three loader bootstrap sequences, if the populate call
fails after a correct size query and a successful allocation, the loader frees
the capability allocation, leaves its retained capability pointer null,
performs no protocol installation, and returns exactly the populate call's
error status. -/
theorem c9_populate_failure_cleanup :
    (∀ (env : DxeEnv) (mDependsNull : Bool),
       env.dependsAllocOk = true →
       EFI_ERROR env.getSectionStatus = false →
       EFI_ERROR env.loadImageStatus = false →
       EFI_ERROR env.handleProtocolStatus = false →
       env.loadedImageNull = false →
       EFI_ERROR env.getEntryStatus = false →
       env.entry.sizeQueryStatus = .bufferTooSmall →
       env.entry.sizeQuerySize ≠ 0 →
       env.protocolAllocOk = true →
       EFI_ERROR env.entry.populateStatus = true →
       DxeLoaderEntryPoint env mDependsNull
         = { status := env.entry.populateStatus, protocolFreed := true,
             retained := false, installed := false })
    ∧ (∀ (env : ByProtocolEnv) (mDependsNull : Bool),
        EFI_ERROR env.locateStatus = false →
        env.signatureOk = true →
        env.entryNull = false →
        env.dependsAllocOk = true →
        env.entry.sizeQueryStatus = .bufferTooSmall →
        env.entry.sizeQuerySize ≠ 0 →
        env.protocolAllocOk = true →
        EFI_ERROR env.entry.populateStatus = true →
        DxeByProtocolEntryPoint env mDependsNull
          = { status := env.entry.populateStatus, protocolFreed := true,
              retained := false, installed := false })
    ∧ (∀ (fnAddr : Nat → Nat) (init2 : Status) (buf0 : List Nat),
        EFI_ERROR init2 = true →
        OneCryptoHostLoaderInit fnAddr .success init2 true buf0
          = { status := init2, protocolFreed := true,
              retained := false, installed := false }) := by
  refine ⟨?_, ?_, ?_⟩
  · intro env mDependsNull h1 h2 h3 h4 h5 h6 h7 h8 h9 h10
    simp [DxeLoaderEntryPoint, h1, h2, h3, h4, h5, h6, h7, h8, h9, h10]
  · intro env mDependsNull h1 h2 h3 h4 h5 h6 h7 h8
    simp [DxeByProtocolEntryPoint, h1, h2, h3, h4, h5, h6, h7, h8]
  · intro fnAddr init2 buf0 h
    simp [OneCryptoHostLoaderInit, CryptoEntry, NoSetupCryptoEntry, OneCryptoCrtSetup,
      sizeofOneCryptoProtocol, cryptoInitFnCount, h]

/-- Environment of a DXE loader run whose populate call fails with a device
error after everything before it succeeded. -/
def c9DxeEnv : DxeEnv :=
  { getSectionStatus := .success, loadImageStatus := .success,
    handleProtocolStatus := .success, loadedImageNull := false,
    getEntryStatus := .success, dependsAllocOk := true, protocolAllocOk := true,
    installStatus := .success,
    entry := { sizeQueryStatus := .bufferTooSmall, sizeQuerySize := 215,
               populateStatus := .deviceError } }

/-- Environment of a protocol-based DXE loader run whose populate call fails
with a device error after everything before it succeeded. -/
def c9ByProtocolEnv : ByProtocolEnv :=
  { locateStatus := .success, signatureOk := true, entryNull := false,
    dependsAllocOk := true, protocolAllocOk := true, installStatus := .success,
    entry := { sizeQueryStatus := .bufferTooSmall, sizeQuerySize := 215,
               populateStatus := .deviceError } }

/-- C9, witness: the cleanup equations at the concrete failing environments. -/
theorem c9_witness :
    DxeLoaderEntryPoint c9DxeEnv false
      = { status := .deviceError, protocolFreed := true, retained := false,
          installed := false }
    ∧ DxeByProtocolEntryPoint c9ByProtocolEnv false
      = { status := .deviceError, protocolFreed := true, retained := false,
          installed := false }
    ∧ OneCryptoHostLoaderInit (fun k => k) .success .deviceError true []
      = { status := .deviceError, protocolFreed := true, retained := false,
          installed := false } :=
  ⟨c9_populate_failure_cleanup.1 c9DxeEnv false rfl rfl rfl rfl rfl rfl rfl
     (by decide) rfl rfl,
   c9_populate_failure_cleanup.2.1 c9ByProtocolEnv false rfl rfl rfl rfl rfl
     (by decide) rfl rfl,
   c9_populate_failure_cleanup.2.2 (fun k => k) .deviceError [] rfl⟩

/-! ### Concrete PE images for the relocation and mapping claims -/

/-- A 256-byte PE32+ image (SizeOfImage 0x110, SizeOfHeaders 0x20, no sections, NumberOfRvaAndSizes 6) whose relocation directory points at a block at RVA 0x10 with page RVA 0x108 and one DIR64 entry at offset 4: the 8-byte fixup at 0x10C extends past SizeOfImage. -/
def c1file : List Nat :=
  [77, 90, 0, 0, 0, 0, 0, 0, 0, 0, 0, 0, 0, 0, 0, 0, 8, 1, 0, 0, 10, 0, 0, 0,
   4, 160, 0, 0, 0, 0, 0, 0, 0, 0, 0, 0, 0, 0, 0, 0, 0, 0, 0, 0, 0, 0, 0, 0, 0,
   0, 0, 0, 0, 0, 0, 0, 0, 0, 0, 0, 64, 0, 0, 0, 80, 69, 0, 0, 0, 0, 0, 0, 0,
   0, 0, 0, 0, 0, 0, 0, 0, 0, 0, 0, 160, 0, 0, 0, 11, 2, 0, 0, 0, 0, 0, 0, 0,
   0, 0, 0, 0, 0, 0, 0, 0, 0, 0, 0, 0, 0, 0, 0, 0, 0, 0, 0, 0, 0, 0, 0, 0, 0,
   0, 0, 0, 0, 0, 0, 0, 0, 0, 0, 0, 0, 0, 0, 0, 0, 0, 0, 0, 0, 0, 0, 16, 1, 0,
   0, 32, 0, 0, 0, 0, 0, 0, 0, 0, 0, 0, 0, 0, 0, 0, 0, 0, 0, 0, 0, 0, 0, 0, 0,
   0, 0, 0, 0, 0, 0, 0, 0, 0, 0, 0, 0, 0, 0, 0, 0, 0, 0, 0, 0, 0, 0, 0, 0, 6,
   0, 0, 0, 0, 0, 0, 0, 0, 0, 0, 0, 0, 0, 0, 0, 0, 0, 0, 0, 0, 0, 0, 0, 0, 0,
   0, 0, 0, 0, 0, 0, 0, 0, 0, 0, 0, 0, 0, 0, 0, 0, 0, 0, 16, 0, 0, 0, 10, 0, 0,
   0, 0, 0, 0, 0, 0, 0, 0, 0
  ]

/-- A 288-byte PE32+ image (SizeOfImage 0x20, SizeOfHeaders 0x20) with one section whose PointerToRawData is 0xFFFFFFFC and SizeOfRawData is 8: the 32-bit sum wraps to 4, below the file size. -/
def c2file : List Nat :=
  [77, 90, 0, 0, 0, 0, 0, 0, 0, 0, 0, 0, 0, 0, 0, 0, 0, 0, 0, 0, 0, 0, 0, 0, 0,
   0, 0, 0, 0, 0, 0, 0, 0, 0, 0, 0, 0, 0, 0, 0, 0, 0, 0, 0, 0, 0, 0, 0, 0, 0,
   0, 0, 0, 0, 0, 0, 0, 0, 0, 0, 64, 0, 0, 0, 80, 69, 0, 0, 0, 0, 1, 0, 0, 0,
   0, 0, 0, 0, 0, 0, 0, 0, 0, 0, 160, 0, 0, 0, 11, 2, 0, 0, 0, 0, 0, 0, 0, 0,
   0, 0, 0, 0, 0, 0, 0, 0, 0, 0, 0, 0, 0, 0, 0, 0, 0, 0, 0, 0, 0, 0, 0, 0, 0,
   0, 0, 0, 0, 0, 0, 0, 0, 0, 0, 0, 0, 0, 0, 0, 0, 0, 0, 0, 0, 0, 32, 0, 0, 0,
   32, 0, 0, 0, 0, 0, 0, 0, 0, 0, 0, 0, 0, 0, 0, 0, 0, 0, 0, 0, 0, 0, 0, 0, 0,
   0, 0, 0, 0, 0, 0, 0, 0, 0, 0, 0, 0, 0, 0, 0, 0, 0, 0, 0, 0, 0, 0, 0, 0, 0,
   0, 0, 0, 0, 0, 0, 0, 0, 0, 0, 0, 0, 0, 0, 0, 0, 0, 0, 0, 0, 0, 0, 0, 0, 0,
   0, 0, 0, 0, 0, 0, 0, 0, 0, 0, 0, 0, 0, 0, 0, 0, 0, 0, 0, 0, 0, 0, 0, 0, 0,
   0, 0, 0, 0, 0, 0, 0, 0, 0, 0, 0, 0, 0, 0, 0, 0, 8, 0, 0, 0, 252, 255, 255,
   255, 0, 0, 0, 0, 0, 0, 0, 0, 0, 0, 0, 0, 0, 0, 0, 0
  ]

/-- A 256-byte PE32+ image declaring SizeOfOptionalHeader 0xF0 and one section: the section table would sit at offset 0x148, past the end of the file. -/
def c4file : List Nat :=
  [77, 90, 0, 0, 0, 0, 0, 0, 0, 0, 0, 0, 0, 0, 0, 0, 0, 0, 0, 0, 0, 0, 0, 0, 0,
   0, 0, 0, 0, 0, 0, 0, 0, 0, 0, 0, 0, 0, 0, 0, 0, 0, 0, 0, 0, 0, 0, 0, 0, 0,
   0, 0, 0, 0, 0, 0, 0, 0, 0, 0, 64, 0, 0, 0, 80, 69, 0, 0, 0, 0, 1, 0, 0, 0,
   0, 0, 0, 0, 0, 0, 0, 0, 0, 0, 240, 0, 0, 0, 11, 2, 0, 0, 0, 0, 0, 0, 0, 0,
   0, 0, 0, 0, 0, 0, 0, 0, 0, 0, 0, 0, 0, 0, 0, 0, 0, 0, 0, 0, 0, 0, 0, 0, 0,
   0, 0, 0, 0, 0, 0, 0, 0, 0, 0, 0, 0, 0, 0, 0, 0, 0, 0, 0, 0, 0, 32, 0, 0, 0,
   32, 0, 0, 0, 0, 0, 0, 0, 0, 0, 0, 0, 0, 0, 0, 0, 0, 0, 0, 0, 0, 0, 0, 0, 0,
   0, 0, 0, 0, 0, 0, 0, 0, 0, 0, 0, 0, 0, 0, 0, 0, 0, 0, 0, 0, 0, 0, 0, 0, 0,
   0, 0, 0, 0, 0, 0, 0, 0, 0, 0, 0, 0, 0, 0, 0, 0, 0, 0, 0, 0, 0, 0, 0, 0, 0,
   0, 0, 0, 0, 0, 0, 0, 0, 0, 0, 0, 0, 0, 0, 0, 0, 0, 0, 0, 0, 0, 0, 0, 0, 0,
   0, 0, 0, 0, 0, 0, 0, 0
  ]

/-- A 256-byte PE32+ image (SizeOfImage 0x40, SizeOfHeaders 0x34) whose relocation directory holds one block at RVA 0x10 with page RVA 0x30 and a single HIGHLOW entry at offset 0 (fixup field 0x30, in bounds). -/
def c8hfile : List Nat :=
  [77, 90, 0, 0, 0, 0, 0, 0, 0, 0, 0, 0, 0, 0, 0, 0, 48, 0, 0, 0, 10, 0, 0, 0,
   0, 48, 0, 0, 0, 0, 0, 0, 0, 0, 0, 0, 0, 0, 0, 0, 0, 0, 0, 0, 0, 0, 0, 0, 0,
   0, 0, 0, 0, 0, 0, 0, 0, 0, 0, 0, 64, 0, 0, 0, 80, 69, 0, 0, 0, 0, 0, 0, 0,
   0, 0, 0, 0, 0, 0, 0, 0, 0, 0, 0, 160, 0, 0, 0, 11, 2, 0, 0, 0, 0, 0, 0, 0,
   0, 0, 0, 0, 0, 0, 0, 0, 0, 0, 0, 0, 0, 0, 0, 0, 0, 0, 0, 0, 0, 0, 0, 0, 0,
   0, 0, 0, 0, 0, 0, 0, 0, 0, 0, 0, 0, 0, 0, 0, 0, 0, 0, 0, 0, 0, 0, 64, 0, 0,
   0, 52, 0, 0, 0, 0, 0, 0, 0, 0, 0, 0, 0, 0, 0, 0, 0, 0, 0, 0, 0, 0, 0, 0, 0,
   0, 0, 0, 0, 0, 0, 0, 0, 0, 0, 0, 0, 0, 0, 0, 0, 0, 0, 0, 0, 0, 0, 0, 0, 6,
   0, 0, 0, 0, 0, 0, 0, 0, 0, 0, 0, 0, 0, 0, 0, 0, 0, 0, 0, 0, 0, 0, 0, 0, 0,
   0, 0, 0, 0, 0, 0, 0, 0, 0, 0, 0, 0, 0, 0, 0, 0, 0, 0, 16, 0, 0, 0, 10, 0, 0,
   0, 0, 0, 0, 0, 0, 0, 0, 0
  ]

/-- Like c8hfile but with a single DIR64 entry (fixup field 0x30..0x38, in bounds; SizeOfHeaders 0x38). -/
def c8dfile : List Nat :=
  [77, 90, 0, 0, 0, 0, 0, 0, 0, 0, 0, 0, 0, 0, 0, 0, 48, 0, 0, 0, 10, 0, 0, 0,
   0, 160, 0, 0, 0, 0, 0, 0, 0, 0, 0, 0, 0, 0, 0, 0, 0, 0, 0, 0, 0, 0, 0, 0, 0,
   0, 0, 0, 0, 0, 0, 0, 0, 0, 0, 0, 64, 0, 0, 0, 80, 69, 0, 0, 0, 0, 0, 0, 0,
   0, 0, 0, 0, 0, 0, 0, 0, 0, 0, 0, 160, 0, 0, 0, 11, 2, 0, 0, 0, 0, 0, 0, 0,
   0, 0, 0, 0, 0, 0, 0, 0, 0, 0, 0, 0, 0, 0, 0, 0, 0, 0, 0, 0, 0, 0, 0, 0, 0,
   0, 0, 0, 0, 0, 0, 0, 0, 0, 0, 0, 0, 0, 0, 0, 0, 0, 0, 0, 0, 0, 0, 64, 0, 0,
   0, 56, 0, 0, 0, 0, 0, 0, 0, 0, 0, 0, 0, 0, 0, 0, 0, 0, 0, 0, 0, 0, 0, 0, 0,
   0, 0, 0, 0, 0, 0, 0, 0, 0, 0, 0, 0, 0, 0, 0, 0, 0, 0, 0, 0, 0, 0, 0, 0, 6,
   0, 0, 0, 0, 0, 0, 0, 0, 0, 0, 0, 0, 0, 0, 0, 0, 0, 0, 0, 0, 0, 0, 0, 0, 0,
   0, 0, 0, 0, 0, 0, 0, 0, 0, 0, 0, 0, 0, 0, 0, 0, 0, 0, 16, 0, 0, 0, 10, 0, 0,
   0, 0, 0, 0, 0, 0, 0, 0, 0
  ]


instance {ε α : Type} [DecidableEq ε] [DecidableEq α] : DecidableEq (Except ε α) := by
  intro x y
  cases x <;> cases y
  case error.error a b =>
    exact if h : a = b then isTrue (by rw [h]) else isFalse (by simp [h])
  case ok.ok a b =>
    exact if h : a = b then isTrue (by rw [h]) else isFalse (by simp [h])
  case error.ok a b => exact isFalse (by simp)
  case ok.error a b => exact isFalse (by simp)

/-! ### Helper lemmas on little-endian reads and writes -/

theorem length_write32 (l : List Nat) (i v : Nat) : (write32 l i v).length = l.length := by
  simp [write32]

theorem byte_write32_of_ne (l : List Nat) (i v j : Nat) (h : j < i ∨ i + 4 ≤ j) :
    byte (write32 l i v) j = byte l j := by
  unfold byte write32
  rw [getD_set_other _ _ _ _ (by omega), getD_set_other _ _ _ _ (by omega),
    getD_set_other _ _ _ _ (by omega), getD_set_other _ _ _ _ (by omega)]

theorem byte_write32_at0 (l : List Nat) (i v : Nat) (h : i < l.length) :
    byte (write32 l i v) i = v % 2 ^ 8 := by
  unfold byte write32
  rw [getD_set_other _ _ _ _ (by omega), getD_set_other _ _ _ _ (by omega),
    getD_set_other _ _ _ _ (by omega)]
  exact getD_set_self _ _ _ h

theorem byte_write32_at1 (l : List Nat) (i v : Nat) (h : i + 1 < l.length) :
    byte (write32 l i v) (i + 1) = v / 2 ^ 8 % 2 ^ 8 := by
  unfold byte write32
  rw [getD_set_other _ _ _ _ (by omega), getD_set_other _ _ _ _ (by omega)]
  exact getD_set_self _ _ _ (by simpa using h)

theorem byte_write32_at2 (l : List Nat) (i v : Nat) (h : i + 2 < l.length) :
    byte (write32 l i v) (i + 2) = v / 2 ^ 16 % 2 ^ 8 := by
  unfold byte write32
  rw [getD_set_other _ _ _ _ (by omega)]
  exact getD_set_self _ _ _ (by simpa using h)

theorem byte_write32_at3 (l : List Nat) (i v : Nat) (h : i + 3 < l.length) :
    byte (write32 l i v) (i + 3) = v / 2 ^ 24 % 2 ^ 8 := by
  unfold byte write32
  exact getD_set_self _ _ _ (by simpa using h)

/-- Reading back a 32-bit little-endian store recovers the value mod 2^32. -/
theorem le32_write32 (l : List Nat) (i v : Nat) (h : i + 4 ≤ l.length) :
    le32 (write32 l i v) i = v % 2 ^ 32 := by
  unfold le32
  rw [byte_write32_at0 _ _ _ (by omega), byte_write32_at1 _ _ _ (by omega),
    byte_write32_at2 _ _ _ (by omega), byte_write32_at3 _ _ _ (by omega)]
  omega

/-- A 32-bit store does not change a disjoint 32-bit field. -/
theorem le32_write32_of_disjoint (l : List Nat) (i v j : Nat)
    (h : j + 4 ≤ i ∨ i + 4 ≤ j) : le32 (write32 l i v) j = le32 l j := by
  unfold le32
  rw [byte_write32_of_ne _ _ _ _ (by omega), byte_write32_of_ne _ _ _ _ (by omega),
    byte_write32_of_ne _ _ _ _ (by omega), byte_write32_of_ne _ _ _ _ (by omega)]

/-- Reading back a 64-bit little-endian store recovers the value mod 2^64. -/
theorem le64_write64 (l : List Nat) (i v : Nat) (h : i + 8 ≤ l.length) :
    le64 (write64 l i v) i = v % 2 ^ 64 := by
  unfold le64 write64
  rw [le32_write32_of_disjoint _ _ _ _ (by omega),
    le32_write32 _ _ _ (by omega),
    le32_write32 _ _ _ (by rw [length_write32]; omega)]
  omega

/-! ### Claim C1: relocation fixup bounds -/

/-- C1, counterexample to the claim as stated: loading c1file at delta 1
succeeds, but its single DIR64 relocation entry makes the loader perform a
64-bit add-delta store whose 8-byte range (0x10C..0x114) extends past the
0x110-byte image - no bounds check against MappedImage.size is performed
(oobFixup records the out-of-bounds store the C executes). -/
theorem c1_counterexample :
    (PeCoffLoadImage c1file 1).map (fun m => (m.oobFixup, m.img.length))
      = .ok (true, 272) := by
  decide

/-- C1 (amended): the relocation applier performs no bounds check before its
HIGHLOW/DIR64 stores: processing an entry marks an out-of-bounds fixup store
exactly when the entry is of type DIR64 or HIGHLOW and its fixup range
(page RVA + offset, 8 or 4 bytes) extends past MappedImage.size - the store
is attempted regardless, and such inputs exist (see the counterexample). -/
theorem c1_no_fixup_bounds_check :
    ∀ (delta : Int) (pos : Nat) (m : MappedImage) (j : Nat),
      (applyEntry delta pos m j).oobFixup = true ↔
        (m.oobFixup = true
         ∨ (le16 m.img (pos + 8 + 2 * j) / 2 ^ 12 = 10
            ∧ m.img.length < le32 m.img pos + le16 m.img (pos + 8 + 2 * j) % 2 ^ 12 + 8)
         ∨ (le16 m.img (pos + 8 + 2 * j) / 2 ^ 12 = 3
            ∧ m.img.length < le32 m.img pos + le16 m.img (pos + 8 + 2 * j) % 2 ^ 12 + 4)) := by
  intro delta pos m j
  simp only [applyEntry]
  split_ifs with h0 h10 h3 <;>
    simp_all [Bool.or_eq_true, decide_eq_true_iff]

/-! ### Claim C2: section bounds checks and 32-bit wrap-around -/

/-- C2: the failing input evaluated.  c2file's single section declares
PointerToRawData 0xFFFFFFFC and SizeOfRawData 8; their 32-bit sum wraps to 4,
which passes the `PointerToRawData + SizeOfRawData > FileSize` check
(lines 204-209 of PeCoffLoaderHost.c compute the sum in uint32 arithmetic),
so the image is accepted and the copy reads far past the 288-byte file
(oobRead records the out-of-bounds source range). -/
theorem c2_wrapped_bounds_check_bypass :
    le32 c2file 268 = 4294967292
    ∧ le32 c2file 264 = 8
    ∧ (4294967292 + 8) % 2 ^ 32 = 4
    ∧ c2file.length = 288
    ∧ (PeCoffLoadImage c2file 0).map (fun m => (m.oobRead, m.oobWrite)) = .ok (true, false) := by
  exact ⟨by decide, by decide, by decide, by decide, by decide⟩

/-! ### Claim C4: header validation sequence -/

/-- Errors produced by the section loop are exactly the two section messages. -/
theorem loadSections_error_cases (f : List Nat) (secBase sizeOfImage : Nat) :
    ∀ (count i : Nat) (m : MappedImage) (e : String),
      loadSections f secBase sizeOfImage i count m = .error e →
      e = "Section data out of bounds" ∨ e = "Section VA out of bounds" := by
  intro count
  induction count with
  | zero => intro i m e h; simp [loadSections] at h
  | succ n ih =>
    intro i m e h
    rw [loadSections] at h
    split_ifs at h with h1 h2 h3
    · simp at h; exact Or.inl h.symm
    · simp at h; exact Or.inr h.symm
    · exact ih _ _ _ h
    · exact ih _ _ _ h

/-- C4, counterexample to the claim as stated: c4file's file header declares
SizeOfOptionalHeader 0xF0 and one section, so the section table would have to
sit at bytes 0x148..0x170, past the 256-byte buffer - the declared
optional-header size and section count are inconsistent with the remaining
length - and yet PeCoffLoadImage maps the image successfully (no consistency
check exists; oobRead records that the section header was read past the end
of the file). -/
theorem c4_counterexample :
    c4file.length = 256
    ∧ le16 c4file 70 = 1
    ∧ le16 c4file 84 = 240
    ∧ 256 < optOff c4file + 240 + 40 * 1
    ∧ (PeCoffLoadImage c4file 0).map (fun m => m.oobRead) = .ok true := by
  exact ⟨by decide, by decide, by decide, by decide, by decide⟩

/-- C4 (amended): PeCoffLoadImage validates, in this order, rejecting with a
distinct error on each failure: total length at least 64 (the DOS header);
the "MZ" signature; that the PE offset plus signature plus COFF file header
fits in the buffer; the "PE\0\0" signature; and the PE32+ magic (rejecting
non-64-bit images).  No consistency check of the declared optional-header
size or section count against the remaining buffer is performed (see the
counterexample); any error it ever returns is one of these five or one of
the two section-bounds errors. -/
theorem c4_validation_order :
    ∀ (f : List Nat) (delta : Int),
      (f.length < 64 → PeCoffLoadImage f delta = .error "File too small")
      ∧ (64 ≤ f.length → le16 f 0 ≠ 0x5A4D →
          PeCoffLoadImage f delta = .error "Invalid DOS signature")
      ∧ (64 ≤ f.length → le16 f 0 = 0x5A4D → f.length < le32 f 60 + 4 + 20 →
          PeCoffLoadImage f delta = .error "PE offset out of bounds")
      ∧ (64 ≤ f.length → le16 f 0 = 0x5A4D → le32 f 60 + 4 + 20 ≤ f.length →
          le32 f (le32 f 60) ≠ 0x4550 →
          PeCoffLoadImage f delta = .error "Invalid PE signature")
      ∧ (64 ≤ f.length → le16 f 0 = 0x5A4D → le32 f 60 + 4 + 20 ≤ f.length →
          le32 f (le32 f 60) = 0x4550 → le16 f (le32 f 60 + 24) ≠ 0x20B →
          PeCoffLoadImage f delta = .error "Only PE32+ supported")
      ∧ (∀ e : String, PeCoffLoadImage f delta = .error e →
          e = "File too small" ∨ e = "Invalid DOS signature"
          ∨ e = "PE offset out of bounds" ∨ e = "Invalid PE signature"
          ∨ e = "Only PE32+ supported"
          ∨ e = "Section data out of bounds" ∨ e = "Section VA out of bounds") := by
  intro f delta
  refine ⟨?_, ?_, ?_, ?_, ?_, ?_⟩
  · intro h; simp [PeCoffLoadImage, h]
  · intro h1 h2; simp [PeCoffLoadImage, Nat.not_lt.mpr h1, h2]
  · intro h1 h2 h3; simp [PeCoffLoadImage, Nat.not_lt.mpr h1, h2, h3]
  · intro h1 h2 h3 h4
    simp [PeCoffLoadImage, Nat.not_lt.mpr h1, h2, Nat.not_lt.mpr h3, h4]
  · intro h1 h2 h3 h4 h5
    simp [PeCoffLoadImage, Nat.not_lt.mpr h1, h2, Nat.not_lt.mpr h3, h4, h5]
  · intro e h
    simp only [PeCoffLoadImage] at h
    split_ifs at h with h1 h2 h3 h4 h5
    · simp at h; exact Or.inl h.symm
    · simp at h; exact Or.inr (Or.inl h.symm)
    · simp at h; exact Or.inr (Or.inr (Or.inl h.symm))
    · simp at h; exact Or.inr (Or.inr (Or.inr (Or.inl h.symm)))
    · simp at h; exact Or.inr (Or.inr (Or.inr (Or.inr (Or.inl h.symm))))
    · split at h
      case _ e' heq =>
        simp at h
        subst h
        have := loadSections_error_cases f _ _ _ _ _ _ heq
        tauto
      case _ m heq => simp at h

/-- C4, witness: the first validation step applied to the empty file. -/
theorem c4_witness : PeCoffLoadImage [] 0 = .error "File too small" :=
  (c4_validation_order [] 0).1 (by decide)

/-! ### Claim C7: relocation applier semantics -/

/-- C7: the relocation pass is a no-op when the load delta is zero; it is a
no-op when NumberOfRvaAndSizes is not greater than 5; the block walk stops
when the directory extent is exhausted or a zero-sized block is seen; and for
each 16-bit entry: type ABSOLUTE (0) changes nothing, type HIGHLOW (3) adds
the 32-bit-truncated delta to the 32-bit field at page RVA + offset, type
DIR64 (10) adds the full 64-bit delta to the 64-bit field there, and any
other type changes no memory and is appended to the reported list. -/
theorem c7_relocation_semantics :
    (∀ (f : List Nat) (m : MappedImage), relocPhase f 0 m = m)
    ∧ (∀ (f : List Nat) (delta : Int) (m : MappedImage),
        le32 f (optOff f + 108) ≤ 5 → relocPhase f delta m = m)
    ∧ (∀ (delta : Int) (relocEnd fuel pos : Nat) (m : MappedImage),
        relocEnd ≤ pos ∨ le32 m.img (pos + 4) = 0 →
        relocWalk delta relocEnd fuel pos m = m)
    ∧ (∀ (delta : Int) (pos : Nat) (m : MappedImage) (j ty off : Nat),
        le16 m.img (pos + 8 + 2 * j) = 2 ^ 12 * ty + off → off < 2 ^ 12 →
        (ty = 0 → applyEntry delta pos m j = m)
        ∧ (ty = 3 → le32 m.img pos + off + 4 ≤ m.img.length →
            le32 (applyEntry delta pos m j).img (le32 m.img pos + off)
              = (((le32 m.img (le32 m.img pos + off) : Int) + delta) % (2 ^ 32 : Int)).toNat
            ∧ (applyEntry delta pos m j).reported = m.reported
            ∧ (applyEntry delta pos m j).oobFixup = m.oobFixup)
        ∧ (ty = 10 → le32 m.img pos + off + 8 ≤ m.img.length →
            le64 (applyEntry delta pos m j).img (le32 m.img pos + off)
              = (((le64 m.img (le32 m.img pos + off) : Int) + delta) % (2 ^ 64 : Int)).toNat
            ∧ (applyEntry delta pos m j).reported = m.reported
            ∧ (applyEntry delta pos m j).oobFixup = m.oobFixup)
        ∧ (ty ≠ 0 → ty ≠ 3 → ty ≠ 10 →
            (applyEntry delta pos m j).img = m.img
            ∧ (applyEntry delta pos m j).reported = m.reported ++ [ty])) := by
  refine ⟨?_, ?_, ?_, ?_⟩
  · intro f m; simp [relocPhase]
  · intro f delta m h
    simp only [optOff] at h
    simp only [relocPhase, optOff]
    split_ifs with h1 h2 h3
    any_goals rfl
    all_goals omega
  · intro delta relocEnd fuel pos m h
    match fuel with
    | 0 => rfl
    | fu + 1 =>
      rw [relocWalk]
      rcases h with h | h
      · rw [if_neg]; omega
      · rw [if_neg]; simp [h]
  · intro delta pos m j ty off he hoff
    have hty : le16 m.img (pos + 8 + 2 * j) / 2 ^ 12 = ty := by omega
    have hof : le16 m.img (pos + 8 + 2 * j) % 2 ^ 12 = off := by omega
    refine ⟨?_, ?_, ?_, ?_⟩
    · intro h0
      simp only [applyEntry, hty, hof]
      rw [if_pos h0]
    · intro h3 hb
      simp only [applyEntry, hty, hof]
      rw [if_neg (by omega), if_neg (by omega), if_pos h3]
      refine ⟨?_, rfl, ?_⟩
      · rw [le32_write32 _ _ _ hb]
        have h1 : (0 : Int) ≤ ((le32 m.img (le32 m.img pos + off) : Int) + delta)
            % (2 ^ 32 : Int) := Int.emod_nonneg _ (by norm_num)
        have h2 : ((le32 m.img (le32 m.img pos + off) : Int) + delta) % (2 ^ 32 : Int)
            < (2 ^ 32 : Int) := Int.emod_lt_of_pos _ (by norm_num)
        omega
      · show (m.oobFixup || decide (m.img.length < le32 m.img pos + off + 4)) = m.oobFixup
        rw [decide_eq_false (by omega)]
        exact Bool.or_false _
    · intro h10 hb
      simp only [applyEntry, hty, hof]
      rw [if_neg (by omega), if_pos h10]
      refine ⟨?_, rfl, ?_⟩
      · rw [le64_write64 _ _ _ hb]
        have h1 : (0 : Int) ≤ ((le64 m.img (le32 m.img pos + off) : Int) + delta)
            % (2 ^ 64 : Int) := Int.emod_nonneg _ (by norm_num)
        have h2 : ((le64 m.img (le32 m.img pos + off) : Int) + delta) % (2 ^ 64 : Int)
            < (2 ^ 64 : Int) := Int.emod_lt_of_pos _ (by norm_num)
        omega
      · show (m.oobFixup || decide (m.img.length < le32 m.img pos + off + 8)) = m.oobFixup
        rw [decide_eq_false (by omega)]
        exact Bool.or_false _
    · intro hn0 hn3 hn10
      simp only [applyEntry, hty, hof]
      rw [if_neg hn0, if_neg hn10, if_neg hn3]
      exact ⟨rfl, rfl⟩

/-- A 16-byte image holding one relocation block at position 0: page RVA 12,
SizeOfBlock 10, a single HIGHLOW entry with offset 0, and the 32-bit value 5
at the fixup field (bytes 12..16). -/
def c7m : MappedImage :=
  { img := [12, 0, 0, 0, 10, 0, 0, 0, 0, 48, 0, 0, 5, 0, 0, 0],
    oobRead := false, oobWrite := false, oobFixup := false, reported := [] }

/-- C7, witness: the four conjuncts applied at concrete inputs - a zero
delta, a directory count of 0, an exhausted extent, and the HIGHLOW entry of
c7m (5 + 1 = 6 lands in the fixup field). -/
theorem c7_witness :
    relocPhase [] 0 c7m = c7m
    ∧ relocPhase [] 7 c7m = c7m
    ∧ relocWalk 1 0 5 3 c7m = c7m
    ∧ le32 (applyEntry 1 0 c7m 0).img (le32 c7m.img 0 + 0)
        = (((le32 c7m.img (le32 c7m.img 0 + 0) : Int) + 1) % (2 ^ 32 : Int)).toNat :=
  ⟨c7_relocation_semantics.1 [] c7m,
   c7_relocation_semantics.2.1 [] 7 c7m (by decide),
   c7_relocation_semantics.2.2.1 1 0 5 3 c7m (Or.inl (by decide)),
   ((c7_relocation_semantics.2.2.2 1 0 c7m 0 3 0 (by decide) (by decide)).2.1
      rfl (by decide)).1⟩

/-! ### Claim C8: relocation application is not idempotent -/

/-- C8, counterexample to the claim as stated: for the block of c8hfile
(one HIGHLOW entry, le16 of the mapped image at 24 is 0x3000 = 12288) and the
non-zero delta 2^32, applying the relocation pass twice equals applying it
once: the 32-bit truncation of 2^32 is 0, so each application adds nothing. -/
theorem c8_counterexample :
    (2 ^ 32 : Int) ≠ 0
    ∧ (PeCoffLoadImage c8hfile 0).map
        (fun m => (decide (relocPhase c8hfile (2 ^ 32) (relocPhase c8hfile (2 ^ 32) m)
                     = relocPhase c8hfile (2 ^ 32) m),
                   le16 m.img 24))
      = .ok (true, 12288) :=
  ⟨by decide, by decide⟩

/-- C8 (amended): relocation application is not idempotent in general - each
application adds the delta to the fixup fields again, so a test must apply
relocations exactly once - demonstrated on c8dfile (one DIR64 entry) with
delta 1: one application turns the 64-bit fixup field from 0 into 1, a second
turns it into 2, and the twice-applied image differs from the once-applied
one.  The sole exception forced by the counterexample: a block whose only
non-ABSOLUTE entries are HIGHLOW and a delta that is a non-zero multiple of
2^32 make each application a no-op, hence idempotent. -/
theorem c8_not_idempotent_in_general :
    (PeCoffLoadImage c8dfile 0).map
      (fun m => (le64 (relocPhase c8dfile 1 m).img 48,
                 le64 (relocPhase c8dfile 1 (relocPhase c8dfile 1 m)).img 48,
                 decide (relocPhase c8dfile 1 (relocPhase c8dfile 1 m)
                   = relocPhase c8dfile 1 m)))
    = .ok (1, 2, false) := by
  decide

end OneCrypto
